import Mathlib

/-!
# go-kobuki: the gobot driver for the Kobuki base (`gobot/driver.go`)

A shallow embedding of `Driver` and its methods.  The driver is glue between
two libraries that are not part of the repository: `gobuki` (the bot and its
mover) and `gobot` (the `Eventer`).  Every call the driver makes on one of
them, every invocation of a user callback and every write to standard output
is appended, in program order, to a trace; what the libraries are configured
with is read back from that trace.

Conventions of the embedding:

* a Go pointer, interface or func value that may be nil is an `Option`;
* dereferencing nil, calling a method on a nil bot / mover / eventer, or
  calling a nil func ends the call with `Outcome.nilDeref`;
* a failed single-value type assertion `data.(*T)` ends it with
  `Outcome.badAssert`;
* user callbacks are opaque: their invocation and argument are recorded,
  their bodies are not modelled;
* the bot keeps every handler it is given with `On` / `OnAll`, calls them in
  registration order, and does not recover a panic raised inside a handler;
  a setter of the bot keeps the value it was last given;
* `float64`, `int` and `int16` arguments are only ever passed through, so a
  `float64` is its bit pattern and the integers are `Int`.
-/

namespace Kobuki

/-! ## Constants (driver.go 14-41) -/

def FeedbackEvent : String := "Feedback"
def GyroEvent : String := "Gyro"
def CliffEvent : String := "Cliff"
def WheelsDropEvent : String := "WheelsDrop"
def WheelsEncoderEvent : String := "WheelsEncoder"
def WheelsPWMEvent : String := "wheelsPWM"
def BumperEvent : String := "Bumper"
def ButtonsEvent : String := "Button"
def ChargeStateEvent : String := "ChargeState"
def DockingIREvent : String := "DockingIR"
def CliffADCEvent : String := "CliffADC"
def InertialEvent : String := "Inertial"
def BatteryVoltageEvent : String := "BatteryVoltage"

/-! ## Values -/

/-- A `float64`, carried as its bit pattern. -/
structure Float64 where
  bits : Nat
  deriving DecidableEq, Repr

/-- The dynamic types a sensor payload (`interface{}`) can have: the pointer
types the typed subscription methods assert, and any other type. -/
inductive GoType where
  | gyroData
  | cliff
  | wheelsEncoder
  | wheelsDrop
  | wheelsPWM
  | inertial
  | bumper
  | buttons
  | chargeState
  | uint8
  | currentWheels
  | dockingIR
  | other (name : String)
  deriving DecidableEq, Repr

/-- A non-nil `interface{}` value: its dynamic type and the pointer it holds. -/
structure Dyn where
  ty : GoType
  ref : Nat
  deriving DecidableEq, Repr

/-- An `interface{}` value; `none` is the nil interface. -/
abbrev Data := Option Dyn

/-- A user function value, identified by a label. -/
structure Fn where
  id : Nat
  deriving DecidableEq, Repr

/-- The function stored in `Driver.started`: the literal `func() {}` that
`NewDriver` installs, or a function given to `OnStart`. -/
inductive StartedFn where
  | noop
  | user (f : Fn)
  deriving DecidableEq, Repr

/-- The type `Feedback` (driver.go 56-60). -/
structure Feedback where
  Name : String
  Data : Data
  deriving DecidableEq, Repr

/-- The bot (`*gobuki.Bot`), identified by its address. -/
structure Bot where
  addr : Nat
  deriving DecidableEq, Repr

/-- The type `Adaptor`: the only field the driver reads is `bot`. -/
structure Adaptor where
  bot : Option Bot
  deriving DecidableEq, Repr

/-- A mover made by `gobuki.NewMover(bot)`: `id` numbers the movers in the
order they were created. -/
structure Mover where
  id : Nat
  bot : Option Bot
  deriving DecidableEq, Repr

/-- The type `commands.SoundSequence`. -/
structure SoundSequence where
  code : Nat
  deriving DecidableEq, Repr

/-- A command value; `soundSequenceCmd q` is `commands.SoundSequenceCmd(q)`. -/
inductive Command where
  | soundSequenceCmd (q : SoundSequence)
  deriving DecidableEq, Repr

/-- The closure an `OnX` method hands to `bot.On`:
`func(data interface{}) { f(data.(*T)) }`. -/
structure Handler where
  ty : GoType
  f : Option Fn
  deriving DecidableEq, Repr

/-- The closure `Start` hands to `bot.OnAll`:
`func(name, data) { d.Publish(FeedbackEvent, Feedback{name, data}) }`. -/
inductive AllHandler where
  | publishFeedback
  deriving DecidableEq, Repr

/-- The methods of the bot that the driver calls. -/
inductive BotCall where
  | addModule (m : Option Mover)
  | start
  | onAll (h : AllHandler)
  | on (name : String) (h : Handler)
  | setCliffADCTolerance (t : Int)
  | setGyroTolerance (t : Float64)
  | setCurrentWheelsTolerance (t : Int)
  | send (c : Command)
  deriving DecidableEq, Repr

/-- One observable step of the program. -/
inductive Ev where
  | addEvent (name : String)
  | newMover (m : Mover)
  | bot (b : Bot) (c : BotCall)
  | moverMove (m : Mover) (vx wz : Float64)
  | moverMoveRaw (m : Mover) (speed radius : Int)
  | callStarted (f : StartedFn)
  | callFn (f : Fn) (arg : Dyn)
  | publish (name : String) (fb : Feedback)
  | println (line : String)
  | goLogLoop
  deriving DecidableEq, Repr

/-- The `gobot.Eventer` made by `gobot.NewEventer()`: the names added with
`AddEvent`. -/
structure Eventer where
  eventnames : List String
  deriving DecidableEq, Repr

/-- The type `Driver` (driver.go 62-70). -/
structure Driver where
  name : String
  adaptor : Option Adaptor
  started : Option StartedFn
  eventer : Option Eventer
  mover : Option Mover
  encoder : Unit
  deriving DecidableEq, Repr

/-- The driver together with the trace of what has happened and the number
of movers created so far. -/
structure State where
  d : Driver
  trace : List Ev
  movers : Nat
  deriving DecidableEq, Repr

/-- How a call ends: it returns, or the goroutine panics. -/
inductive Outcome (α : Type) where
  | ret (a : α)
  | nilDeref
  | badAssert
  deriving DecidableEq, Repr

/-- A Go `error`; only `errors.New(msg)` occurs. -/
structure GoError where
  msg : String
  deriving DecidableEq, Repr

/-- Append one event to the trace. -/
def State.emit (s : State) (e : Ev) : State :=
  { s with trace := s.trace ++ [e] }

/-! ## The driver (driver.go 72-258) -/

/-- NewDriver (driver.go 73-84). -/
def NewDriver (a : Option Adaptor) : State :=
  { d := { name := "Kobuki"
           adaptor := a
           started := some StartedFn.noop
           eventer := some { eventnames := [FeedbackEvent] }
           mover := none
           encoder := () }
    trace := [Ev.addEvent FeedbackEvent]
    movers := 0 }

/-- Name (driver.go 87-89). -/
def Name (s : State) : String := s.d.name

/-- SetName (driver.go 92-94). -/
def SetName (n : String) (s : State) : Outcome Unit × State :=
  (.ret (), { s with d := { s.d with name := n } })

/-- Publish on the embedded Eventer: `d.Publish(name, fb)`. -/
def Publish (name : String) (fb : Feedback) (s : State) : Outcome Unit × State :=
  match s.d.eventer with
  | none => (.nilDeref, s)
  | some _ => (.ret (), s.emit (.publish name fb))

/-- Start (driver.go 97-116).  The goroutine that prints the bot's log channel
forever is recorded as `Ev.goLogLoop`; what it prints is not modelled. -/
def Start (s : State) : Outcome (Option GoError) × State :=
  match s.d.adaptor with
  | none => (.nilDeref, s)
  | some a =>
    let m : Mover := { id := s.movers, bot := a.bot }
    let s1 : State :=
      { d := { s.d with mover := some m }
        trace := s.trace ++ [Ev.newMover m]
        movers := s.movers + 1 }
    match a.bot with
    | none => (.nilDeref, s1)
    | some b =>
      let s2 := s1.emit (.bot b (.addModule s1.d.mover))
      let s3 := s2.emit (.bot b .start)
      match s3.d.started with
      | none => (.nilDeref, s3)
      | some f =>
        let s4 := s3.emit (.callStarted f)
        let s5 := s4.emit (.bot b (.onAll .publishFeedback))
        let s6 := s5.emit .goLogLoop
        (.ret none, s6)

/-- Halt (driver.go 119-122). -/
def Halt (s : State) : Outcome (Option GoError) × State :=
  (.ret none, s.emit (.println "halt called"))

/-- SetCliffADCTolerance (driver.go 125-131). -/
def SetCliffADCTolerance (t : Int) (s : State) : Outcome (Option GoError) × State :=
  match s.d.adaptor with
  | none => (.nilDeref, s)
  | some a =>
    match a.bot with
    | none => (.ret (some ⟨"driver not started"⟩), s)
    | some b => (.ret none, s.emit (.bot b (.setCliffADCTolerance t)))

/-- SetGyroTolerance (driver.go 134-140). -/
def SetGyroTolerance (t : Float64) (s : State) : Outcome (Option GoError) × State :=
  match s.d.adaptor with
  | none => (.nilDeref, s)
  | some a =>
    match a.bot with
    | none => (.ret (some ⟨"driver not started"⟩), s)
    | some b => (.ret none, s.emit (.bot b (.setGyroTolerance t)))

/-- SetCurrentWheelsTolerance (driver.go 143-149). -/
def SetCurrentWheelsTolerance (t : Int) (s : State) : Outcome (Option GoError) × State :=
  match s.d.adaptor with
  | none => (.nilDeref, s)
  | some a =>
    match a.bot with
    | none => (.ret (some ⟨"driver not started"⟩), s)
    | some b => (.ret none, s.emit (.bot b (.setCurrentWheelsTolerance t)))

/-- Move (driver.go 152-154). -/
def Move (vx wz : Float64) (s : State) : Outcome Unit × State :=
  match s.d.mover with
  | none => (.nilDeref, s)
  | some m => (.ret (), s.emit (.moverMove m vx wz))

/-- MoveRaw (driver.go 157-159). -/
def MoveRaw (speed radius : Int) (s : State) : Outcome Unit × State :=
  match s.d.mover with
  | none => (.nilDeref, s)
  | some m => (.ret (), s.emit (.moverMoveRaw m speed radius))

/-- PlaySoundSequence (driver.go 162-164). -/
def PlaySoundSequence (sequence : SoundSequence) (s : State) : Outcome Unit × State :=
  match s.d.adaptor with
  | none => (.nilDeref, s)
  | some a =>
    match a.bot with
    | none => (.nilDeref, s)
    | some b => (.ret (), s.emit (.bot b (.send (.soundSequenceCmd sequence))))

/-- Connection (driver.go 167-169). -/
def Connection (s : State) : Option Adaptor := s.d.adaptor

/-- OnStart (driver.go 172-174). -/
def OnStart (f : Option Fn) (s : State) : Outcome Unit × State :=
  (.ret (), { s with d := { s.d with started := f.map StartedFn.user } })

/-- The common shape of the typed subscription methods:
`d.adaptor.bot.On(name, func(data interface{}) { f(data.(*T)) })`. -/
def onTyped (name : String) (ty : GoType) (f : Option Fn) (s : State) :
    Outcome Unit × State :=
  match s.d.adaptor with
  | none => (.nilDeref, s)
  | some a =>
    match a.bot with
    | none => (.nilDeref, s)
    | some b => (.ret (), s.emit (.bot b (.on name { ty := ty, f := f })))

/-- OnGyro (driver.go 177-181). -/
def OnGyro (f : Option Fn) (s : State) : Outcome Unit × State :=
  onTyped GyroEvent .gyroData f s

/-- OnCliff (driver.go 184-188). -/
def OnCliff (f : Option Fn) (s : State) : Outcome Unit × State :=
  onTyped CliffEvent .cliff f s

/-- OnWheelEncoder (driver.go 191-195). -/
def OnWheelEncoder (f : Option Fn) (s : State) : Outcome Unit × State :=
  onTyped WheelsEncoderEvent .wheelsEncoder f s

/-- OnWheelDrop (driver.go 198-202). -/
def OnWheelDrop (f : Option Fn) (s : State) : Outcome Unit × State :=
  onTyped WheelsDropEvent .wheelsDrop f s

/-- OnWheelPWM (driver.go 205-209). -/
def OnWheelPWM (f : Option Fn) (s : State) : Outcome Unit × State :=
  onTyped WheelsPWMEvent .wheelsPWM f s

/-- OnInertial (driver.go 212-216). -/
def OnInertial (f : Option Fn) (s : State) : Outcome Unit × State :=
  onTyped InertialEvent .inertial f s

/-- OnBumper (driver.go 219-223). -/
def OnBumper (f : Option Fn) (s : State) : Outcome Unit × State :=
  onTyped BumperEvent .bumper f s

/-- OnButtons (driver.go 226-230). -/
def OnButtons (f : Option Fn) (s : State) : Outcome Unit × State :=
  onTyped ButtonsEvent .buttons f s

/-- OnChargeState (driver.go 233-237). -/
def OnChargeState (f : Option Fn) (s : State) : Outcome Unit × State :=
  onTyped ChargeStateEvent .chargeState f s

/-- OnBatteryVoltage (driver.go 240-244). -/
def OnBatteryVoltage (f : Option Fn) (s : State) : Outcome Unit × State :=
  onTyped ChargeStateEvent .uint8 f s

/-- OnWheelsCurrent (driver.go 247-251). -/
def OnWheelsCurrent (f : Option Fn) (s : State) : Outcome Unit × State :=
  onTyped ChargeStateEvent .currentWheels f s

/-- OnDockingIR (driver.go 254-258). -/
def OnDockingIR (f : Option Fn) (s : State) : Outcome Unit × State :=
  onTyped DockingIREvent .dockingIR f s

/-! ## The closures the driver registers, as the bot runs them -/

/-- The body `f(data.(*T))` of a typed handler: the assertion is evaluated
before the call, so a payload of another dynamic type (or the nil interface)
panics before `f` is reached. -/
def Handler.invoke (h : Handler) (data : Data) (s : State) : Outcome Unit × State :=
  match data with
  | none => (.badAssert, s)
  | some v =>
    if v.ty = h.ty then
      match h.f with
      | none => (.nilDeref, s)
      | some f => (.ret (), s.emit (.callFn f v))
    else (.badAssert, s)

/-- The body of the catch-all closure of `Start` (driver.go 102-107). -/
def AllHandler.invoke (h : AllHandler) (name : String) (data : Data) (s : State) :
    Outcome Unit × State :=
  match h with
  | .publishFeedback => Publish FeedbackEvent { Name := name, Data := data } s

/-! ## What the trace says about the libraries -/

/-- The catch-all handlers registered with `bot.OnAll`, in registration order. -/
def State.allHandlers (s : State) : List AllHandler :=
  s.trace.filterMap fun e =>
    match e with
    | .bot _ (.onAll h) => some h
    | _ => none

/-- The handlers registered with `bot.On` under `name`, in registration order. -/
def State.handlers (s : State) (name : String) : List Handler :=
  s.trace.filterMap fun e =>
    match e with
    | .bot _ (.on n h) => if n = name then some h else none
    | _ => none

/-- The modules added with `bot.AddModule`, in order. -/
def State.modules (s : State) : List (Option Mover) :=
  s.trace.filterMap fun e =>
    match e with
    | .bot _ (.addModule m) => some m
    | _ => none

/-- The events published on the driver's Eventer, in order. -/
def State.published (s : State) : List (String × Feedback) :=
  s.trace.filterMap fun e =>
    match e with
    | .publish n fb => some (n, fb)
    | _ => none

/-- The commands handed to `bot.Send`, in order. -/
def State.sent (s : State) : List Command :=
  s.trace.filterMap fun e =>
    match e with
    | .bot _ (.send c) => some c
    | _ => none

/-- Number of `bot.Start()` calls made so far. -/
def State.botStarts (s : State) : Nat :=
  (s.trace.filter fun e =>
    match e with
    | .bot _ .start => true
    | _ => false).length

/-- The cliff ADC tolerance the bot was last given. -/
def State.cliffADCTolerance (s : State) : Option Int :=
  (s.trace.filterMap fun e =>
    match e with
    | .bot _ (.setCliffADCTolerance t) => some t
    | _ => none).getLast?

/-- The gyro tolerance the bot was last given. -/
def State.gyroTolerance (s : State) : Option Float64 :=
  (s.trace.filterMap fun e =>
    match e with
    | .bot _ (.setGyroTolerance t) => some t
    | _ => none).getLast?

/-- The wheels-current tolerance the bot was last given. -/
def State.currentWheelsTolerance (s : State) : Option Int :=
  (s.trace.filterMap fun e =>
    match e with
    | .bot _ (.setCurrentWheelsTolerance t) => some t
    | _ => none).getLast?

/-! ## Sensor callbacks coming from the bot -/

/-- Run catch-all handlers one after the other; a panic ends the run. -/
def runAll : List AllHandler → String → Data → State → Outcome Unit × State
  | [], _, _, s => (.ret (), s)
  | h :: hs, name, data, s =>
    match h.invoke name data s with
    | (.ret _, s1) => runAll hs name data s1
    | r => r

/-- Run typed handlers one after the other; a panic ends the run. -/
def runHandlers : List Handler → Data → State → Outcome Unit × State
  | [], _, s => (.ret (), s)
  | h :: hs, data, s =>
    match h.invoke data s with
    | (.ret _, s1) => runHandlers hs data s1
    | r => r

/-- The bot delivers a sensor callback `(name, data)` to its catch-all
handlers. -/
def sensorAll (name : String) (data : Data) (s : State) : Outcome Unit × State :=
  runAll s.allHandlers name data s

/-- The bot dispatches `data` to the handlers registered under `name`. -/
def sensorOn (name : String) (data : Data) (s : State) : Outcome Unit × State :=
  runHandlers (s.handlers name) data s

/-! ## Sequences of operations -/

/-- The operations on a driver: its methods, and the two ways the bot calls
back into it. -/
inductive Op where
  | start
  | halt
  | setName (n : String)
  | setCliffADCTolerance (t : Int)
  | setGyroTolerance (t : Float64)
  | setCurrentWheelsTolerance (t : Int)
  | move (vx wz : Float64)
  | moveRaw (speed radius : Int)
  | playSoundSequence (q : SoundSequence)
  | onStart (f : Option Fn)
  | onGyro (f : Option Fn)
  | onCliff (f : Option Fn)
  | onWheelEncoder (f : Option Fn)
  | onWheelDrop (f : Option Fn)
  | onWheelPWM (f : Option Fn)
  | onInertial (f : Option Fn)
  | onBumper (f : Option Fn)
  | onButtons (f : Option Fn)
  | onChargeState (f : Option Fn)
  | onBatteryVoltage (f : Option Fn)
  | onWheelsCurrent (f : Option Fn)
  | onDockingIR (f : Option Fn)
  | sensorAll (name : String) (data : Data)
  | sensorOn (name : String) (data : Data)
  deriving DecidableEq, Repr

/-- Forget the returned value of a call. -/
def Outcome.void {α : Type} : Outcome α → Outcome Unit
  | .ret _ => .ret ()
  | .nilDeref => .nilDeref
  | .badAssert => .badAssert

/-- Forget the returned value of a call, keeping the state. -/
def discard {α : Type} (r : Outcome α × State) : Outcome Unit × State :=
  (r.1.void, r.2)

/-- One operation. -/
def step (o : Op) (s : State) : Outcome Unit × State :=
  match o with
  | .start => discard (Start s)
  | .halt => discard (Halt s)
  | .setName n => SetName n s
  | .setCliffADCTolerance t => discard (SetCliffADCTolerance t s)
  | .setGyroTolerance t => discard (SetGyroTolerance t s)
  | .setCurrentWheelsTolerance t => discard (SetCurrentWheelsTolerance t s)
  | .move vx wz => Move vx wz s
  | .moveRaw speed radius => MoveRaw speed radius s
  | .playSoundSequence q => PlaySoundSequence q s
  | .onStart f => OnStart f s
  | .onGyro f => OnGyro f s
  | .onCliff f => OnCliff f s
  | .onWheelEncoder f => OnWheelEncoder f s
  | .onWheelDrop f => OnWheelDrop f s
  | .onWheelPWM f => OnWheelPWM f s
  | .onInertial f => OnInertial f s
  | .onBumper f => OnBumper f s
  | .onButtons f => OnButtons f s
  | .onChargeState f => OnChargeState f s
  | .onBatteryVoltage f => OnBatteryVoltage f s
  | .onWheelsCurrent f => OnWheelsCurrent f s
  | .onDockingIR f => OnDockingIR f s
  | .sensorAll name data => sensorAll name data s
  | .sensorOn name data => sensorOn name data s

/-- A sequence of operations; a panic ends the program. -/
def run : List Op → State → Outcome Unit × State
  | [], s => (.ret (), s)
  | o :: os, s =>
    match step o s with
    | (.ret _, s1) => run os s1
    | r => r

/-- The sensor callback an operation delivers to the catch-all handlers. -/
def Op.asSensorAll : Op → Option (String × Data)
  | .sensorAll name data => some (name, data)
  | _ => none

/-- The publications one operation causes when `k` catch-all handlers are
registered: each handler publishes the callback once. -/
def Op.pubs (o : Op) (k : Nat) : List (String × Feedback) :=
  match o with
  | .sensorAll name data => List.replicate k (FeedbackEvent, { Name := name, Data := data })
  | _ => []

/-- The number of catch-all handlers one operation registers. -/
def Op.adds (o : Op) : Nat :=
  match o with
  | .start => 1
  | _ => 0

/-- The publications a sequence of operations causes when it starts with `k`
catch-all handlers registered. -/
def fan : List Op → Nat → List (String × Feedback)
  | [], _ => []
  | o :: os, k => o.pubs k ++ fan os (k + o.adds)

/-- Register start callbacks one after the other. -/
def registerAll (fs : List Fn) (s : State) : State :=
  fs.foldl (fun acc f => (OnStart (some f) acc).2) s

/-- The start callback that is in place after registering `fs` on a fresh
driver: the last one, or the no-op of `NewDriver`. -/
def lastStarted (fs : List Fn) : StartedFn :=
  match fs.getLast? with
  | some f => .user f
  | none => .noop

/-! ## Basic facts about the trace -/

@[simp] theorem emit_trace (s : State) (e : Ev) : (s.emit e).trace = s.trace ++ [e] := rfl

@[simp] theorem emit_d (s : State) (e : Ev) : (s.emit e).d = s.d := rfl

@[simp] theorem emit_movers (s : State) (e : Ev) : (s.emit e).movers = s.movers := rfl

theorem cliffADCTolerance_emit (s : State) (b : Bot) (t : Int) :
    (s.emit (.bot b (.setCliffADCTolerance t))).cliffADCTolerance = some t := by
  simp [State.cliffADCTolerance, List.filterMap_append]

theorem gyroTolerance_emit (s : State) (b : Bot) (t : Float64) :
    (s.emit (.bot b (.setGyroTolerance t))).gyroTolerance = some t := by
  simp [State.gyroTolerance, List.filterMap_append]

theorem currentWheelsTolerance_emit (s : State) (b : Bot) (t : Int) :
    (s.emit (.bot b (.setCurrentWheelsTolerance t))).currentWheelsTolerance = some t := by
  simp [State.currentWheelsTolerance, List.filterMap_append]

/-! ## The tolerance setters -/

/-- C1: with an adaptor in place, each of SetCliffADCTolerance,
SetGyroTolerance and SetCurrentWheelsTolerance returns the error
"driver not started" exactly when the adaptor's bot is nil, and then leaves
the state (hence the bot) untouched; when the bot is present it returns nil,
the only thing it does is one call of the bot's setter with the given
tolerance, and the tolerance the bot holds afterwards is that value. -/
theorem setTolerance_notStarted_iff_bot_nil (s : State) (a : Adaptor)
    (ha : s.d.adaptor = some a) (ti : Int) (tf : Float64) :
    (((SetCliffADCTolerance ti s).1 ≠ .ret none ↔ a.bot = none) ∧
      (a.bot = none →
        SetCliffADCTolerance ti s = (.ret (some ⟨"driver not started"⟩), s)) ∧
      (∀ b, a.bot = some b →
        SetCliffADCTolerance ti s = (.ret none, s.emit (.bot b (.setCliffADCTolerance ti))) ∧
        (SetCliffADCTolerance ti s).2.cliffADCTolerance = some ti)) ∧
    (((SetGyroTolerance tf s).1 ≠ .ret none ↔ a.bot = none) ∧
      (a.bot = none →
        SetGyroTolerance tf s = (.ret (some ⟨"driver not started"⟩), s)) ∧
      (∀ b, a.bot = some b →
        SetGyroTolerance tf s = (.ret none, s.emit (.bot b (.setGyroTolerance tf))) ∧
        (SetGyroTolerance tf s).2.gyroTolerance = some tf)) ∧
    (((SetCurrentWheelsTolerance ti s).1 ≠ .ret none ↔ a.bot = none) ∧
      (a.bot = none →
        SetCurrentWheelsTolerance ti s = (.ret (some ⟨"driver not started"⟩), s)) ∧
      (∀ b, a.bot = some b →
        SetCurrentWheelsTolerance ti s
          = (.ret none, s.emit (.bot b (.setCurrentWheelsTolerance ti))) ∧
        (SetCurrentWheelsTolerance ti s).2.currentWheelsTolerance = some ti)) := by
  cases hb : a.bot with
  | none =>
    simp [SetCliffADCTolerance, SetGyroTolerance, SetCurrentWheelsTolerance, ha, hb]
  | some b =>
    simp [SetCliffADCTolerance, SetGyroTolerance, SetCurrentWheelsTolerance, ha, hb,
      cliffADCTolerance_emit, gyroTolerance_emit, currentWheelsTolerance_emit]

/-- Witness for C1: a fresh driver on an adaptor whose connection is open. -/
theorem setTolerance_notStarted_iff_bot_nil_witness :
    (SetCliffADCTolerance 5 (NewDriver (some ⟨some ⟨1⟩⟩))).1 = .ret none ∧
    (SetCliffADCTolerance 5 (NewDriver (some ⟨some ⟨1⟩⟩))).2.cliffADCTolerance = some 5 ∧
    (SetGyroTolerance ⟨7⟩ (NewDriver (some ⟨some ⟨1⟩⟩))).2.gyroTolerance = some ⟨7⟩ ∧
    (SetCurrentWheelsTolerance 5 (NewDriver (some ⟨some ⟨1⟩⟩))).2.currentWheelsTolerance
      = some 5 := by
  have h := setTolerance_notStarted_iff_bot_nil (NewDriver (some ⟨some ⟨1⟩⟩)) ⟨some ⟨1⟩⟩ rfl 5 ⟨7⟩
  obtain ⟨⟨_, _, h1⟩, ⟨_, _, h2⟩, ⟨_, _, h3⟩⟩ := h
  have e1 := h1 ⟨1⟩ rfl
  have e2 := h2 ⟨1⟩ rfl
  have e3 := h3 ⟨1⟩ rfl
  exact ⟨by rw [e1.1], e1.2, e2.2, e3.2⟩

/-! ## Commands -/

/-- C2, evaluated before Start: on a driver that has not been started but
whose adaptor holds a bot, PlaySoundSequence returns normally,
without any error, and has called bot.Send with the sound command; Move and
MoveRaw, which return no error either, end in a nil dereference of the unset
mover. -/
theorem commands_before_start_not_guarded (b : Bot) (q : SoundSequence)
    (vx wz : Float64) (speed radius : Int) :
    (NewDriver (some ⟨some b⟩)).d.mover = none ∧
    (NewDriver (some ⟨some b⟩)).botStarts = 0 ∧
    PlaySoundSequence q (NewDriver (some ⟨some b⟩))
      = (.ret (), (NewDriver (some ⟨some b⟩)).emit (.bot b (.send (.soundSequenceCmd q)))) ∧
    (PlaySoundSequence q (NewDriver (some ⟨some b⟩))).2.sent = [.soundSequenceCmd q] ∧
    Move vx wz (NewDriver (some ⟨some b⟩)) = (.nilDeref, NewDriver (some ⟨some b⟩)) ∧
    MoveRaw speed radius (NewDriver (some ⟨some b⟩))
      = (.nilDeref, NewDriver (some ⟨some b⟩)) := by
  refine ⟨rfl, rfl, rfl, rfl, rfl, rfl⟩

/-- C8: on a driver whose mover and bot are set, Move(vx, wz) does exactly
one thing, the call mover.Move(vx, wz); MoveRaw(speed, radius) does exactly
one thing, the call mover.MoveRaw(speed, radius); PlaySoundSequence(q) does
exactly one thing, the call bot.Send(commands.SoundSequenceCmd(q)); each
returns and leaves every field of the driver as it was. -/
theorem commands_forwarded_unchanged (s : State) (a : Adaptor) (b : Bot) (m : Mover)
    (ha : s.d.adaptor = some a) (hb : a.bot = some b) (hm : s.d.mover = some m)
    (vx wz : Float64) (speed radius : Int) (q : SoundSequence) :
    Move vx wz s = (.ret (), { s with trace := s.trace ++ [Ev.moverMove m vx wz] }) ∧
    MoveRaw speed radius s
      = (.ret (), { s with trace := s.trace ++ [Ev.moverMoveRaw m speed radius] }) ∧
    PlaySoundSequence q s
      = (.ret (), { s with trace := s.trace ++ [Ev.bot b (.send (.soundSequenceCmd q))] }) ∧
    (Move vx wz s).2.d = s.d ∧ (MoveRaw speed radius s).2.d = s.d ∧
    (PlaySoundSequence q s).2.d = s.d := by
  simp [Move, MoveRaw, PlaySoundSequence, ha, hb, hm, State.emit]

/-- Witness for C8: a driver that has been started on an open connection. -/
theorem commands_forwarded_unchanged_witness :
    Move ⟨1⟩ ⟨2⟩ (Start (NewDriver (some ⟨some ⟨0⟩⟩))).2
      = (.ret (), { (Start (NewDriver (some ⟨some ⟨0⟩⟩))).2 with
          trace := (Start (NewDriver (some ⟨some ⟨0⟩⟩))).2.trace
            ++ [Ev.moverMove ⟨0, some ⟨0⟩⟩ ⟨1⟩ ⟨2⟩] }) :=
  (commands_forwarded_unchanged (Start (NewDriver (some ⟨some ⟨0⟩⟩))).2 ⟨some ⟨0⟩⟩ ⟨0⟩
    ⟨0, some ⟨0⟩⟩ rfl rfl rfl ⟨1⟩ ⟨2⟩ 3 4 ⟨5⟩).1

/-! ## Typed subscriptions -/

theorem handlers_emit_on (s : State) (b : Bot) (n name : String) (h : Handler) :
    (s.emit (.bot b (.on n h))).handlers name
      = s.handlers name ++ (if n = name then [h] else []) := by
  by_cases hn : n = name <;> simp [State.handlers, List.filterMap_append, hn]

/-- C4: with the bot in place, OnBatteryVoltage and OnWheelsCurrent each make
one call bot.On under the name "ChargeState", the name OnChargeState uses; the
handlers registered under any other name, "BatteryVoltage" included, are the
same after the call as before. -/
theorem onBatteryVoltage_onWheelsCurrent_use_chargeState (s : State) (a : Adaptor)
    (b : Bot) (ha : s.d.adaptor = some a) (hb : a.bot = some b) (f : Option Fn) :
    ChargeStateEvent = "ChargeState" ∧ ChargeStateEvent ≠ BatteryVoltageEvent ∧
    OnChargeState f s
      = (.ret (), s.emit (.bot b (.on "ChargeState" { ty := .chargeState, f := f }))) ∧
    OnBatteryVoltage f s
      = (.ret (), s.emit (.bot b (.on "ChargeState" { ty := .uint8, f := f }))) ∧
    OnWheelsCurrent f s
      = (.ret (), s.emit (.bot b (.on "ChargeState" { ty := .currentWheels, f := f }))) ∧
    (∀ name, name ≠ "ChargeState" →
      (OnBatteryVoltage f s).2.handlers name = s.handlers name ∧
      (OnWheelsCurrent f s).2.handlers name = s.handlers name) := by
  refine ⟨rfl, by decide, ?_, ?_, ?_, ?_⟩
  · simp [OnChargeState, onTyped, ha, hb, ChargeStateEvent]
  · simp [OnBatteryVoltage, onTyped, ha, hb, ChargeStateEvent]
  · simp [OnWheelsCurrent, onTyped, ha, hb, ChargeStateEvent]
  · intro name hne
    have hne2 : ¬ ("ChargeState" = name) := fun h => hne h.symm
    simp [OnBatteryVoltage, OnWheelsCurrent, onTyped, ha, hb, ChargeStateEvent,
      handlers_emit_on, hne2]

/-- Witness for C4: a fresh driver on an open connection. -/
theorem onBatteryVoltage_onWheelsCurrent_use_chargeState_witness :
    OnBatteryVoltage (some ⟨3⟩) (NewDriver (some ⟨some ⟨0⟩⟩))
      = (.ret (), (NewDriver (some ⟨some ⟨0⟩⟩)).emit
          (.bot ⟨0⟩ (.on "ChargeState" { ty := .uint8, f := some ⟨3⟩ }))) :=
  (onBatteryVoltage_onWheelsCurrent_use_chargeState (NewDriver (some ⟨some ⟨0⟩⟩))
    ⟨some ⟨0⟩⟩ ⟨0⟩ rfl rfl (some ⟨3⟩)).2.2.2.1

/-- C5, evaluated for OnBatteryVoltage and OnWheelsCurrent: after OnBatteryVoltage(f), or
OnWheelsCurrent(f), on a fresh driver, the handler sits under "ChargeState";
when the bot dispatches a *sensors.ChargeState payload under that name the
handler's type assertion fails, the dispatch panics and f is not called. -/
theorem chargeState_dispatch_fails_assertion (b : Bot) (f : Option Fn) (ref : Nat) :
    (OnBatteryVoltage f (NewDriver (some ⟨some b⟩))).2.handlers ChargeStateEvent
      = [{ ty := .uint8, f := f }] ∧
    Handler.invoke { ty := .uint8, f := f } (some ⟨.chargeState, ref⟩)
        (OnBatteryVoltage f (NewDriver (some ⟨some b⟩))).2
      = (.badAssert, (OnBatteryVoltage f (NewDriver (some ⟨some b⟩))).2) ∧
    sensorOn ChargeStateEvent (some ⟨.chargeState, ref⟩)
        (OnBatteryVoltage f (NewDriver (some ⟨some b⟩))).2
      = (.badAssert, (OnBatteryVoltage f (NewDriver (some ⟨some b⟩))).2) ∧
    (OnWheelsCurrent f (NewDriver (some ⟨some b⟩))).2.handlers ChargeStateEvent
      = [{ ty := .currentWheels, f := f }] ∧
    Handler.invoke { ty := .currentWheels, f := f } (some ⟨.chargeState, ref⟩)
        (OnWheelsCurrent f (NewDriver (some ⟨some b⟩))).2
      = (.badAssert, (OnWheelsCurrent f (NewDriver (some ⟨some b⟩))).2) ∧
    sensorOn ChargeStateEvent (some ⟨.chargeState, ref⟩)
        (OnWheelsCurrent f (NewDriver (some ⟨some b⟩))).2
      = (.badAssert, (OnWheelsCurrent f (NewDriver (some ⟨some b⟩))).2) := by
  refine ⟨rfl, rfl, rfl, rfl, rfl, rfl⟩

/-! ## Halt -/

/-- C6: for every state, Halt returns nil and only prints a line: the driver
(name, adaptor, started callback, Eventer with its event names, mover), the
handlers registered with bot.On and bot.OnAll and the publications are the same
after Halt as before. -/
theorem halt_keeps_subscriptions (s : State) :
    Halt s = (.ret none, { s with trace := s.trace ++ [Ev.println "halt called"] }) ∧
    (Halt s).2.d = s.d ∧
    (Halt s).2.allHandlers = s.allHandlers ∧
    (∀ name, (Halt s).2.handlers name = s.handlers name) ∧
    (Halt s).2.modules = s.modules ∧
    (Halt s).2.published = s.published := by
  simp [Halt, State.emit, State.allHandlers, State.handlers, State.modules,
    State.published, List.filterMap_append]

/-- C7, evaluated on Start followed by Halt, on a fresh driver with an open
connection.  Halt adds nothing to the trace but its printed
line, so it makes no call on the bot; the bot has been started once and the
catch-all handler is still registered, and a sensor callback delivered after
Halt is published on the Feedback channel as before. -/
theorem halt_does_not_stop_bot (b : Bot) (name : String) (data : Data) :
    (Halt (Start (NewDriver (some ⟨some b⟩))).2).2.trace
      = (Start (NewDriver (some ⟨some b⟩))).2.trace ++ [Ev.println "halt called"] ∧
    (Halt (Start (NewDriver (some ⟨some b⟩))).2).2.botStarts = 1 ∧
    (Halt (Start (NewDriver (some ⟨some b⟩))).2).2.allHandlers = [.publishFeedback] ∧
    sensorAll name data (Halt (Start (NewDriver (some ⟨some b⟩))).2).2
      = (.ret (), (Halt (Start (NewDriver (some ⟨some b⟩))).2).2.emit
          (.publish "Feedback" { Name := name, Data := data })) := by
  refine ⟨rfl, rfl, rfl, rfl⟩

/-! ## Sensor callbacks and sequences of operations -/

theorem runAll_ret (name : String) (data : Data) (hs : List AllHandler) :
    ∀ (s s1 : State) (u : Unit), runAll hs name data s = (.ret u, s1) →
      s1.trace = s.trace
        ++ List.replicate hs.length (Ev.publish FeedbackEvent { Name := name, Data := data }) ∧
      s1.d = s.d ∧ s1.movers = s.movers := by
  induction hs with
  | nil =>
    intro s s1 u h
    simp only [runAll, Prod.mk.injEq] at h
    obtain ⟨_, rfl⟩ := h
    simp
  | cons a hs ih =>
    intro s s1 u h
    cases a
    cases he : s.d.eventer with
    | none => simp [runAll, AllHandler.invoke, Publish, he] at h
    | some e =>
      simp only [runAll, AllHandler.invoke, Publish, he] at h
      obtain ⟨h1, h2, h3⟩ := ih _ _ _ h
      refine ⟨?_, ?_, ?_⟩
      · rw [h1]; simp [List.replicate_succ]
      · rw [h2]; rfl
      · rw [h3]; rfl

theorem runAll_total (name : String) (data : Data) (hs : List AllHandler) :
    ∀ (s : State), s.d.eventer ≠ none →
      runAll hs name data s
        = (.ret (), { s with
            trace := s.trace ++ List.replicate hs.length (Ev.publish FeedbackEvent ⟨name, data⟩) }) := by
  induction hs with
  | nil => intro s _; simp [runAll]
  | cons a hs ih =>
    intro s hs0
    cases a
    cases he : s.d.eventer with
    | none => exact absurd he hs0
    | some e =>
      simp only [runAll, AllHandler.invoke, Publish, he]
      rw [ih _ (by simp [he])]
      simp [State.emit, List.replicate_succ]

theorem runHandlers_ret (data : Data) (hs : List Handler) :
    ∀ (s s1 : State) (u : Unit), runHandlers hs data s = (.ret u, s1) →
      s1.published = s.published ∧ s1.allHandlers = s.allHandlers := by
  induction hs with
  | nil =>
    intro s s1 u h
    simp only [runHandlers, Prod.mk.injEq] at h
    obtain ⟨_, rfl⟩ := h
    simp
  | cons a hs ih =>
    intro s s1 u h
    cases data with
    | none => simp [runHandlers, Handler.invoke] at h
    | some v =>
      by_cases hty : v.ty = a.ty
      · cases hf : a.f with
        | none => simp [runHandlers, Handler.invoke, hty, hf] at h
        | some f =>
          simp only [runHandlers, Handler.invoke, hty, hf, if_true] at h
          obtain ⟨h1, h2⟩ := ih _ _ _ h
          rw [h1, h2]
          simp [State.published, State.allHandlers, List.filterMap_append]
      · simp [runHandlers, Handler.invoke, hty] at h

theorem onTyped_ret (name : String) (ty : GoType) (f : Option Fn) (s s1 : State) (u : Unit)
    (h : onTyped name ty f s = (.ret u, s1)) :
    s1.published = s.published ∧ s1.allHandlers = s.allHandlers := by
  unfold onTyped at h
  split at h
  · simp at h
  · split at h
    · simp at h
    · simp only [Prod.mk.injEq] at h
      obtain ⟨_, rfl⟩ := h
      simp [State.published, State.allHandlers, List.filterMap_append]

theorem step_ret (o : Op) (s s1 : State) (u : Unit) (h : step o s = (.ret u, s1)) :
    s1.published = s.published ++ o.pubs s.allHandlers.length ∧
    s1.allHandlers.length = s.allHandlers.length + o.adds := by
  cases o with
  | start =>
    simp only [step, discard, Start] at h
    split at h
    · simp [Outcome.void] at h
    · split at h
      · simp [Outcome.void] at h
      · split at h
        · simp [Outcome.void] at h
        · simp only [Prod.mk.injEq] at h
          obtain ⟨_, rfl⟩ := h
          simp [State.published, State.allHandlers, List.filterMap_append, Op.pubs, Op.adds]
  | halt =>
    simp only [step, discard, Halt, Prod.mk.injEq] at h
    obtain ⟨_, rfl⟩ := h
    simp [State.published, State.allHandlers, List.filterMap_append, Op.pubs, Op.adds]
  | setName n =>
    simp only [step, SetName, Prod.mk.injEq] at h
    obtain ⟨_, rfl⟩ := h
    simp [State.published, State.allHandlers, Op.pubs, Op.adds]
  | setCliffADCTolerance t =>
    simp only [step, discard, SetCliffADCTolerance] at h
    split at h
    · simp [Outcome.void] at h
    · split at h <;> simp only [Prod.mk.injEq] at h <;> obtain ⟨_, rfl⟩ := h <;>
        simp [State.published, State.allHandlers, List.filterMap_append, Op.pubs, Op.adds]
  | setGyroTolerance t =>
    simp only [step, discard, SetGyroTolerance] at h
    split at h
    · simp [Outcome.void] at h
    · split at h <;> simp only [Prod.mk.injEq] at h <;> obtain ⟨_, rfl⟩ := h <;>
        simp [State.published, State.allHandlers, List.filterMap_append, Op.pubs, Op.adds]
  | setCurrentWheelsTolerance t =>
    simp only [step, discard, SetCurrentWheelsTolerance] at h
    split at h
    · simp [Outcome.void] at h
    · split at h <;> simp only [Prod.mk.injEq] at h <;> obtain ⟨_, rfl⟩ := h <;>
        simp [State.published, State.allHandlers, List.filterMap_append, Op.pubs, Op.adds]
  | move vx wz =>
    simp only [step, Move] at h
    split at h
    · simp at h
    · simp only [Prod.mk.injEq] at h
      obtain ⟨_, rfl⟩ := h
      simp [State.published, State.allHandlers, List.filterMap_append, Op.pubs, Op.adds]
  | moveRaw speed radius =>
    simp only [step, MoveRaw] at h
    split at h
    · simp at h
    · simp only [Prod.mk.injEq] at h
      obtain ⟨_, rfl⟩ := h
      simp [State.published, State.allHandlers, List.filterMap_append, Op.pubs, Op.adds]
  | playSoundSequence q =>
    simp only [step, PlaySoundSequence] at h
    split at h
    · simp at h
    · split at h
      · simp at h
      · simp only [Prod.mk.injEq] at h
        obtain ⟨_, rfl⟩ := h
        simp [State.published, State.allHandlers, List.filterMap_append, Op.pubs, Op.adds]
  | onStart f =>
    simp only [step, OnStart, Prod.mk.injEq] at h
    obtain ⟨_, rfl⟩ := h
    simp [State.published, State.allHandlers, Op.pubs, Op.adds]
  | onGyro f => (obtain ⟨h1, h2⟩ := onTyped_ret _ _ _ _ _ _ h; simp [h1, h2, Op.pubs, Op.adds])
  | onCliff f => (obtain ⟨h1, h2⟩ := onTyped_ret _ _ _ _ _ _ h; simp [h1, h2, Op.pubs, Op.adds])
  | onWheelEncoder f => (obtain ⟨h1, h2⟩ := onTyped_ret _ _ _ _ _ _ h; simp [h1, h2, Op.pubs, Op.adds])
  | onWheelDrop f => (obtain ⟨h1, h2⟩ := onTyped_ret _ _ _ _ _ _ h; simp [h1, h2, Op.pubs, Op.adds])
  | onWheelPWM f => (obtain ⟨h1, h2⟩ := onTyped_ret _ _ _ _ _ _ h; simp [h1, h2, Op.pubs, Op.adds])
  | onInertial f => (obtain ⟨h1, h2⟩ := onTyped_ret _ _ _ _ _ _ h; simp [h1, h2, Op.pubs, Op.adds])
  | onBumper f => (obtain ⟨h1, h2⟩ := onTyped_ret _ _ _ _ _ _ h; simp [h1, h2, Op.pubs, Op.adds])
  | onButtons f => (obtain ⟨h1, h2⟩ := onTyped_ret _ _ _ _ _ _ h; simp [h1, h2, Op.pubs, Op.adds])
  | onChargeState f => (obtain ⟨h1, h2⟩ := onTyped_ret _ _ _ _ _ _ h; simp [h1, h2, Op.pubs, Op.adds])
  | onBatteryVoltage f => (obtain ⟨h1, h2⟩ := onTyped_ret _ _ _ _ _ _ h; simp [h1, h2, Op.pubs, Op.adds])
  | onWheelsCurrent f => (obtain ⟨h1, h2⟩ := onTyped_ret _ _ _ _ _ _ h; simp [h1, h2, Op.pubs, Op.adds])
  | onDockingIR f => (obtain ⟨h1, h2⟩ := onTyped_ret _ _ _ _ _ _ h; simp [h1, h2, Op.pubs, Op.adds])
  | sensorAll name data =>
    simp only [step, sensorAll] at h
    obtain ⟨h1, _, _⟩ := runAll_ret _ _ _ _ _ _ h
    simp [State.published, State.allHandlers, h1, List.filterMap_append, Op.pubs, Op.adds,
      List.filterMap_replicate]
  | sensorOn name data =>
    simp only [step, sensorOn] at h
    obtain ⟨h1, h2⟩ := runHandlers_ret _ _ _ _ _ h
    simp [h1, h2, Op.pubs, Op.adds]

theorem run_ret (ops : List Op) :
    ∀ (s s1 : State) (u : Unit), run ops s = (.ret u, s1) →
      s1.published = s.published ++ fan ops s.allHandlers.length := by
  induction ops with
  | nil =>
    intro s s1 u h
    simp only [run, Prod.mk.injEq] at h
    obtain ⟨_, rfl⟩ := h
    simp [fan]
  | cons o os ih =>
    intro s s1 u h
    cases hst : step o s with
    | mk r s2 =>
      cases r with
      | ret v =>
        simp only [run, hst] at h
        obtain ⟨h1, h2⟩ := step_ret o s s2 v hst
        rw [ih _ _ _ h, h1, h2]
        simp [fan]
      | nilDeref => simp [run, hst] at h
      | badAssert => simp [run, hst] at h

theorem fan_append (xs ys : List Op) :
    ∀ k, fan (xs ++ ys) k = fan xs k ++ fan ys (k + (xs.map Op.adds).sum) := by
  induction xs with
  | nil => intro k; simp [fan]
  | cons x xs ih =>
    intro k
    simp [fan, ih, Nat.add_assoc]

theorem adds_sum_no_start (xs : List Op) (h : Op.start ∉ xs) : (xs.map Op.adds).sum = 0 := by
  induction xs with
  | nil => simp
  | cons x xs ih =>
    have hx : x ≠ Op.start := fun e => h (by simp [e])
    have hxs : Op.start ∉ xs := fun e => h (by simp [e])
    cases x <;> simp_all [Op.adds]

theorem fan_zero_no_start (xs : List Op) (h : Op.start ∉ xs) : fan xs 0 = [] := by
  induction xs with
  | nil => simp [fan]
  | cons x xs ih =>
    have hx : x ≠ Op.start := fun e => h (by simp [e])
    have hxs : Op.start ∉ xs := fun e => h (by simp [e])
    cases x <;> simp_all [fan, Op.adds, Op.pubs]

theorem fan_one_no_start (xs : List Op) (h : Op.start ∉ xs) :
    fan xs 1 = (xs.filterMap Op.asSensorAll).map
      (fun p => (FeedbackEvent, ({ Name := p.1, Data := p.2 } : Feedback))) := by
  induction xs with
  | nil => simp [fan]
  | cons x xs ih =>
    have hx : x ≠ Op.start := fun e => h (by simp [e])
    have hxs : Op.start ∉ xs := fun e => h (by simp [e])
    cases x <;> simp_all [fan, Op.adds, Op.pubs, Op.asSensorAll]

theorem run_sensorAll_total (cs : List (String × Data)) :
    ∀ (s : State), s.d.eventer ≠ none →
      ∃ s1, run (cs.map fun c => Op.sensorAll c.1 c.2) s = (.ret (), s1) := by
  induction cs with
  | nil => intro s _; exact ⟨s, rfl⟩
  | cons c cs ih =>
    intro s hs
    have hrun := runAll_total c.1 c.2 s.allHandlers s hs
    obtain ⟨s1, h1⟩ := ih { s with
      trace := s.trace ++ List.replicate s.allHandlers.length (Ev.publish FeedbackEvent ⟨c.1, c.2⟩) }
      hs
    exact ⟨s1, by simp only [List.map_cons, run, step, sensorAll, hrun]; exact h1⟩

/-! ## Feedback -/

/-- C3: (a) each run of the closure that Start registers as catch-all handler
publishes one event on "Feedback" carrying Feedback{Name: name, Data: data} and
does nothing else; (b) on a fresh driver with an open connection, Start
followed by any sequence of sensor callbacks delivered to the bot's catch-all
handlers runs to the end, and what has then been published on the driver's
Eventer is, callback by callback and in order, one event on "Feedback" carrying
Feedback{Name: name, Data: data}; (c) whatever operations (other than a second
Start) surround the one Start, if the program runs to the end, the publications
are exactly those of the callbacks delivered after Start, one each, unchanged:
nothing else is ever published. -/
theorem feedback_one_per_callback :
    (∀ (s : State) (name : String) (data : Data), s.d.eventer ≠ none →
      AllHandler.invoke .publishFeedback name data s
        = (.ret (), { s with
            trace := s.trace ++ [Ev.publish "Feedback" { Name := name, Data := data }] })) ∧
    (∀ (b : Bot) (cs : List (String × Data)),
      ∃ s, run (Op.start :: cs.map fun c => Op.sensorAll c.1 c.2) (NewDriver (some ⟨some b⟩))
          = (.ret (), s) ∧
        s.published = cs.map fun c => ("Feedback", ({ Name := c.1, Data := c.2 } : Feedback))) ∧
    (∀ (a : Option Adaptor) (pre post : List Op) (s : State),
      Op.start ∉ pre → Op.start ∉ post →
      run (pre ++ Op.start :: post) (NewDriver a) = (.ret (), s) →
      s.published = (post.filterMap Op.asSensorAll).map
        fun c => ("Feedback", ({ Name := c.1, Data := c.2 } : Feedback))) := by
  have key : ∀ (a : Option Adaptor) (pre post : List Op) (s : State),
      Op.start ∉ pre → Op.start ∉ post →
      run (pre ++ Op.start :: post) (NewDriver a) = (.ret (), s) →
      s.published = (post.filterMap Op.asSensorAll).map
        fun c => ("Feedback", ({ Name := c.1, Data := c.2 } : Feedback)) := by
    intro a pre post s hpre hpost h
    have h1 := run_ret _ _ _ _ h
    have h0 : (NewDriver a).published = [] := rfl
    have hk : (NewDriver a).allHandlers.length = 0 := rfl
    rw [h1, h0, hk, fan_append, fan_zero_no_start pre hpre, adds_sum_no_start pre hpre]
    simp only [fan, Op.pubs, Op.adds, List.nil_append, Nat.add_zero, Nat.zero_add]
    rw [fan_one_no_start post hpost]
    rfl
  refine ⟨?_, ?_, key⟩
  · intro s name data hs
    cases he : s.d.eventer with
    | none => exact absurd he hs
    | some e => simp [AllHandler.invoke, Publish, he, State.emit, FeedbackEvent]
  intro b cs
  have hst : step Op.start (NewDriver (some ⟨some b⟩))
      = (.ret (), (Start (NewDriver (some ⟨some b⟩))).2) := rfl
  obtain ⟨s, hs⟩ := run_sensorAll_total cs (Start (NewDriver (some ⟨some b⟩))).2
    (by simp [Start, NewDriver])
  have hrun : run (Op.start :: cs.map fun c => Op.sensorAll c.1 c.2) (NewDriver (some ⟨some b⟩))
      = (.ret (), s) := by
    simp only [run, hst]; exact hs
  refine ⟨s, hrun, ?_⟩
  have hno : Op.start ∉ cs.map fun c => Op.sensorAll c.1 c.2 := by simp
  have := key (some ⟨some b⟩) [] _ s (by simp) hno hrun
  rw [this]
  simp [List.filterMap_map, Function.comp_def, Op.asSensorAll]

/-- Witness for C3: a subscription before Start, then two callbacks with a
Halt and a command in between. -/
theorem feedback_one_per_callback_witness :
    (run ([Op.onGyro (some ⟨1⟩)] ++ Op.start ::
          [Op.sensorAll "Gyro" (some ⟨.gyroData, 7⟩), Op.halt, Op.move ⟨1⟩ ⟨2⟩,
           Op.sensorAll "Cliff" none])
        (NewDriver (some ⟨some ⟨0⟩⟩))).2.published
      = [("Feedback", ⟨"Gyro", some ⟨.gyroData, 7⟩⟩), ("Feedback", ⟨"Cliff", none⟩)] :=
  feedback_one_per_callback.2.2 (some ⟨some ⟨0⟩⟩) [Op.onGyro (some ⟨1⟩)]
    [Op.sensorAll "Gyro" (some ⟨.gyroData, 7⟩), Op.halt, Op.move ⟨1⟩ ⟨2⟩,
     Op.sensorAll "Cliff" none] _ (by decide) (by decide) rfl

/-! ## OnStart and Start -/

theorem registerAll_eq (fs : List Fn) (s : State) :
    registerAll fs s = { s with d := { s.d with
      started := match fs.getLast? with
        | some f => some (.user f)
        | none => s.d.started } } := by
  induction fs using List.reverseRecOn with
  | nil => rfl
  | append_singleton l f ih =>
    unfold registerAll at ih ⊢
    rw [List.foldl_append, ih]
    simp [OnStart]

/-- C9: on a fresh driver with an open connection, after any sequence of
OnStart registrations f1..fn (n >= 0), Start returns nil and does exactly
this, in this order: it creates a mover, adds it to the bot as a module, starts
the bot, calls one start callback once (fn, or the no-op default of NewDriver
when n = 0), registers the catch-all handler, and spawns the log loop.  No
other callback is called. -/
theorem start_calls_last_onStart (b : Bot) (fs : List Fn) :
    Start (registerAll fs (NewDriver (some ⟨some b⟩)))
      = (.ret none,
          { d := { name := "Kobuki"
                   adaptor := some ⟨some b⟩
                   started := some (lastStarted fs)
                   eventer := some { eventnames := ["Feedback"] }
                   mover := some ⟨0, some b⟩
                   encoder := () }
            trace := [Ev.addEvent "Feedback",
                      Ev.newMover ⟨0, some b⟩,
                      Ev.bot b (.addModule (some ⟨0, some b⟩)),
                      Ev.bot b .start,
                      Ev.callStarted (lastStarted fs),
                      Ev.bot b (.onAll .publishFeedback),
                      Ev.goLogLoop]
            movers := 1 }) := by
  rw [registerAll_eq]
  cases h : fs.getLast? <;> simp [Start, NewDriver, State.emit, lastStarted, h, FeedbackEvent]

/-! ## Repeated Start -/

theorem start_ok (b : Bot) (f : StartedFn) (s : State)
    (ha : s.d.adaptor = some ⟨some b⟩) (hf : s.d.started = some f) :
    Start s = (.ret none,
      { d := { s.d with mover := some ⟨s.movers, some b⟩ }
        trace := s.trace ++ [Ev.newMover ⟨s.movers, some b⟩,
                  Ev.bot b (.addModule (some ⟨s.movers, some b⟩)),
                  Ev.bot b .start,
                  Ev.callStarted f,
                  Ev.bot b (.onAll .publishFeedback),
                  Ev.goLogLoop]
        movers := s.movers + 1 }) := by
  simp [Start, ha, hf, State.emit]

theorem lifecycle_run (b : Bot) (f : StartedFn) (ops : List Op) :
    ∀ (s : State), (∀ o ∈ ops, o = Op.start ∨ o = Op.halt) →
      s.d.adaptor = some ⟨some b⟩ → s.d.started = some f →
      ∃ s1, run ops s = (.ret (), s1) ∧
        s1.d.eventer = s.d.eventer ∧
        s1.movers = s.movers + ops.count Op.start ∧
        s1.allHandlers
          = s.allHandlers ++ List.replicate (ops.count Op.start) AllHandler.publishFeedback ∧
        s1.modules = s.modules
          ++ (List.range (ops.count Op.start)).map (fun i => some ⟨s.movers + i, some b⟩) ∧
        s1.d.mover = (if ops.count Op.start = 0 then s.d.mover
          else some ⟨s.movers + ops.count Op.start - 1, some b⟩) := by
  induction ops with
  | nil =>
    intro s _ _ _
    exact ⟨s, rfl, rfl, by simp, by simp, by simp, by simp⟩
  | cons o os ih =>
    intro s hops ha hf
    have hos : ∀ o ∈ os, o = Op.start ∨ o = Op.halt := fun x hx => hops x (by simp [hx])
    rcases hops o (by simp) with rfl | rfl
    · have hst := start_ok b f s ha hf
      obtain ⟨s1, h1, h2, h3, h4, h5, h6⟩ := ih _ hos
        (show (Start s).2.d.adaptor = some ⟨some b⟩ by rw [hst]; exact ha)
        (show (Start s).2.d.started = some f by rw [hst]; exact hf)
      refine ⟨s1, ?_, ?_, ?_, ?_, ?_, ?_⟩
      · simp only [run, step, discard]
        rw [hst] at h1 ⊢
        exact h1
      · rw [h2, hst]
      · rw [h3, hst]; simp; omega
      · rw [h4, hst]
        simp [State.allHandlers, List.filterMap_append, List.replicate_succ]
      · rw [h5, hst]
        simp [State.modules, List.filterMap_append, List.range_succ_eq_map, Function.comp_def,
          Nat.add_assoc, Nat.add_comm 1]
      · rw [h6, hst]
        by_cases hk : os.count Op.start = 0
        · simp [hk]
        · simp [hk]
    · have hh : Halt s = (.ret none, s.emit (.println "halt called")) := rfl
      obtain ⟨s1, h1, h2, h3, h4, h5, h6⟩ := ih (s.emit (.println "halt called")) hos ha hf
      refine ⟨s1, ?_, ?_, ?_, ?_, ?_, ?_⟩
      · simp only [run, step, discard, hh]
        exact h1
      · rw [h2]; rfl
      · rw [h3]; simp
      · rw [h4]
        simp [State.allHandlers, List.filterMap_append]
      · rw [h5]
        simp [State.modules, List.filterMap_append]
      · rw [h6]; simp

/-- C10: on a fresh driver with an open connection, any sequence of Start and
Halt calls containing k >= 1 Starts runs to the end; afterwards k catch-all
handlers are registered on the bot (none was removed), one sensor callback
(name, data) is published exactly k times on "Feedback" as
Feedback{Name: name, Data: data}, the bot has been given the k movers created
by the k Starts as modules, and the driver holds the last of them. -/
theorem start_repeated_fans_out (b : Bot) (ops : List Op)
    (hops : ∀ o ∈ ops, o = Op.start ∨ o = Op.halt) (hk : 1 ≤ ops.count Op.start)
    (name : String) (data : Data) :
    ∃ s, run ops (NewDriver (some ⟨some b⟩)) = (.ret (), s) ∧
      s.allHandlers = List.replicate (ops.count Op.start) AllHandler.publishFeedback ∧
      sensorAll name data s = (.ret (), { s with
        trace := s.trace ++ List.replicate (ops.count Op.start)
          (Ev.publish "Feedback" { Name := name, Data := data }) }) ∧
      s.modules = (List.range (ops.count Op.start)).map (fun i => some ⟨i, some b⟩) ∧
      s.d.mover = some ⟨ops.count Op.start - 1, some b⟩ := by
  obtain ⟨s, h1, h2, _, h4, h5, h6⟩ :=
    lifecycle_run b .noop ops (NewDriver (some ⟨some b⟩)) hops rfl rfl
  have hall : s.allHandlers = List.replicate (ops.count Op.start) AllHandler.publishFeedback := by
    rw [h4]; rfl
  refine ⟨s, h1, hall, ?_, ?_, ?_⟩
  · have hev : s.d.eventer ≠ none := by rw [h2]; simp [NewDriver]
    have := runAll_total name data s.allHandlers s hev
    simpa [sensorAll, hall, FeedbackEvent] using this
  · rw [h5]
    simp [State.modules, NewDriver]
  · rw [h6]
    have : ¬ (ops.count Op.start = 0) := by omega
    simp [this, NewDriver]

/-- Witness for C10: Start, Halt, Start, Start. -/
theorem start_repeated_fans_out_witness :
    ∃ s, run [Op.start, Op.halt, Op.start, Op.start] (NewDriver (some ⟨some ⟨0⟩⟩)) = (.ret (), s) ∧
      s.allHandlers = List.replicate 3 AllHandler.publishFeedback ∧
      sensorAll "Gyro" none s = (.ret (), { s with
        trace := s.trace ++ List.replicate 3
          (Ev.publish "Feedback" { Name := "Gyro", Data := none }) }) ∧
      s.modules = (List.range 3).map (fun i => some ⟨i, some ⟨0⟩⟩) ∧
      s.d.mover = some ⟨3 - 1, some ⟨0⟩⟩ :=
  start_repeated_fans_out ⟨0⟩ [Op.start, Op.halt, Op.start, Op.start] (by decide) (by decide)
    "Gyro" none

end Kobuki
